import Mathlib

/-!
Verification development for the PetroGuard news-analysis service
(`src/app.py`).  The Python source is shallowly embedded: Python values
that flow through the pipeline are modelled by the inductive `PyVal`,
fallible Python code (attribute errors, type errors of `re.sub`, …) by
`Except String`, the two sqlite counter tables by association lists, and
the two external collaborators (the HTTP providers and the Gemini model)
by explicit oracle functions passed in as arguments.  `last_seen`
timestamps, network parameters and logging are side conditions the
claims do not touch and are not modelled.
-/

namespace PetroGuard

/-- Model of the Python values handled by the pipeline (floats and
booleans never occur in the embedded fragment). -/
inductive PyVal where
  | none : PyVal
  | str : String → PyVal
  | int : Int → PyVal
  | list : List PyVal → PyVal
  | dict : List (String × PyVal) → PyVal

/-- Python truthiness (`if v:`). -/
def pyTruthy : PyVal → Bool
  | .none => false
  | .str s => !s.isEmpty
  | .int n => n != 0
  | .list vs => !vs.isEmpty
  | .dict kvs => !kvs.isEmpty

/-- Python `a or b` (value-returning short-circuit or). -/
def pyOr (a b : PyVal) : PyVal := if pyTruthy a then a else b

mutual
/-- Python `repr`, as far as the embedded fragment can observe it
(string escaping inside `repr` is not modelled). -/
def pyRepr : PyVal → String
  | .none => "None"
  | .str s => "\x27" ++ s ++ "\x27"
  | .int n => toString n
  | .list vs => "[" ++ pyReprList vs ++ "]"
  | .dict kvs => "\x7b" ++ pyReprDict kvs ++ "\x7d"

def pyReprList : List PyVal → String
  | [] => ""
  | [v] => pyRepr v
  | v :: vs => pyRepr v ++ ", " ++ pyReprList vs

def pyReprDict : List (String × PyVal) → String
  | [] => ""
  | [(k, v)] => "\x27" ++ k ++ "\x27: " ++ pyRepr v
  | (k, v) :: kvs => "\x27" ++ k ++ "\x27: " ++ pyRepr v ++ ", " ++ pyReprDict kvs
end

/-- Python `str(v)`. -/
def pyStr : PyVal → String
  | .str s => s
  | v => pyRepr v

/-- Python `d.get(key, default)`: calling `.get` on anything that is not
a dict raises `AttributeError`. -/
def pyGet (v : PyVal) (key : String) (default : PyVal) : Except String PyVal :=
  match v with
  | .dict kvs =>
      match kvs.lookup key with
      | some w => .ok w
      | Option.none => .ok default
  | _ => .error "AttributeError: object has no attribute get"

/-- Python `for x in v`: iterating a non-iterable raises `TypeError`.
Iterating a string yields its characters, iterating a dict its keys. -/
def pyIterate : PyVal → Except String (List PyVal)
  | .list vs => .ok vs
  | .str s => .ok (s.toList.map (fun c => .str (String.singleton c)))
  | .dict kvs => .ok (kvs.map (fun kv => .str kv.1))
  | _ => .error "TypeError: object is not iterable"

/-- Python `v == "lit"` for a string literal: values of other types
compare unequal. -/
def pyEqStr (v : PyVal) (s : String) : Bool :=
  match v with
  | .str t => t == s
  | _ => false

/-- Python `s.lower()` (ASCII; the harmful-word list and the parsed
labels are ASCII). -/
def lowerStr (s : String) : String := ⟨s.toList.map Char.toLower⟩

/-- Python `s.startswith(p)`. -/
def pyStartsWith (s p : String) : Bool := p.toList.isPrefixOf s.toList

/-- Whitespace stripped by Python `str.strip()` (ASCII). -/
def pyIsSpace (c : Char) : Bool :=
  c == ' ' || c == '\t' || c == '\n' || c == '\r' || c == '\x0b' || c == '\x0c'

def pyStripList (cs : List Char) : List Char :=
  ((cs.dropWhile pyIsSpace).reverse.dropWhile pyIsSpace).reverse

/-- Python `s.strip()`. -/
def pyStrip (s : String) : String := ⟨pyStripList s.toList⟩

/-- Remainder of the haystack just after the first occurrence of `m`
(Python substring search; `none` when `m` does not occur). -/
def findSubAux (m : List Char) : List Char → Option (List Char)
  | [] => if m.isEmpty then some [] else Option.none
  | c :: cs =>
      if m.isPrefixOf (c :: cs) then some ((c :: cs).drop m.length)
      else findSubAux m cs

/-- Python `needle in hay` on strings. -/
def pyInStr (needle hay : String) : Bool :=
  (findSubAux needle.toList hay.toList).isSome

/-! ### Keyword Detector (`detect_harmful_words`, app.py:154-160) -/

/-- The fixed harmful vocabulary (app.py:62-65). -/
def HARMFUL_KEYWORDS : List String :=
  ["scam", "fraud", "bomb", "attack", "terror", "hack", "threat",
   "arrested", "kill", "bad", "murder", "shoot"]

/-- A regex word character (`\w`): the embedded text is taken to be
ASCII, where `\w` is exactly alphanumeric-or-underscore. -/
def isWordChar (c : Char) : Bool := c.isAlphanum || c == '_'

/-- Case-insensitive literal match of `w` at the head of the text,
returning the remaining text (the regex `re.IGNORECASE` literal part). -/
def prefixMatchCI : List Char → List Char → Option (List Char)
  | [], cs => some cs
  | _ :: _, [] => Option.none
  | w :: ws, c :: cs =>
      if c.toLower == w.toLower then prefixMatchCI ws cs else Option.none

/-- The character adjacent to a match end must be absent or a non-word
character (`\b` after a pattern ending in a word character). -/
def boundaryOK : Option Char → Bool
  | Option.none => true
  | some c => !(isWordChar c)

/-- Scan of `re.search(r'\b<w>\b', text, re.IGNORECASE)` for a pattern
`w` that begins and ends with word characters (true of every entry of
`HARMFUL_KEYWORDS`): `p` carries whether the previous character was a
word character. -/
def scanWord (w : List Char) : Bool → List Char → Bool
  | _, [] => false
  | p, c :: cs =>
      (!p && (match prefixMatchCI w (c :: cs) with
              | some rest => boundaryOK rest.head?
              | Option.none => false))
      || scanWord w (isWordChar c) cs

/-- Whole-word, case-insensitive occurrence of `w` in `text`. -/
def containsWholeWord (text w : String) : Bool :=
  scanWord w.toList false text.toList

/-- The word-boundary condition to the left of a match: either the match
starts where the previous character was not a word character, or (when
there is no previous text) the carried flag `p` says the scan is at a
boundary. -/
def beforeOK (p : Bool) (pre : List Char) : Bool :=
  match pre.getLast? with
  | Option.none => !p
  | some c => !(isWordChar c)

/-- `detect_harmful_words(text)` (app.py:154-160): falsy text (absent or
empty) yields nothing; otherwise every list word with a whole-word,
case-insensitive occurrence in `str(text)` is collected (Python builds a
set; its iteration order is unspecified, so theorems speak of
membership). -/
def detect_harmful_words (text : PyVal) : List String :=
  if pyTruthy text then
    (HARMFUL_KEYWORDS.filter (fun w => containsWholeWord (pyStr text) w)).map lowerStr
  else []

/-! ### Classifier Client
(`fetch_from_gemini_sentiment_intent`, app.py:162-188, and the parsing
half of `full_categorize`, app.py:207-219) -/

/-- The fixed prompt template (app.py:163-178). -/
def buildPrompt (text harm_words : String) : String :=
  "You are analyzing potentially harmful or scam-related news.\n" ++
  "I will provide news/article content and a list of detected harmful words.\n" ++
  "Please classify:\n" ++
  "- Sentiment: one of [positive1, positive2, negative1, negative2, neutral]\n" ++
  "- Intent: one of [harmful1, harmful2, harmless1, harmless2]\n" ++
  "Definitions:\n" ++
  "- positive1: mildly positive, positive2: strongly positive.\n" ++
  "- negative1: mildly negative, negative2: highly negative.\n" ++
  "- harmful1: contains mild threat/scam indicators, harmful2: high threat/scam/severe issue.\n" ++
  "- harmless1: content totally safe, harmless2: content with minor caution but not an actual threat.\n" ++
  "Base your answer on the article and the detected harmful words.\n" ++
  "Return in the exact format:\n" ++
  "SENTIMENT={sentiment_label} INTENT={intent_label} REASON={short_reason}\n\n" ++
  "Article: " ++ text ++ "\n" ++
  "Harmful words: " ++ harm_words ++ "\n"

/-- `fetch_from_gemini_sentiment_intent(text, harm_words)`
(app.py:162-188).  The single model invocation is the oracle `call`
(its successful value is the reply's `.text`); a success is stripped, a
raised exception `e` is caught and rendered as the descriptive string
`[Gemini API error: e]`. -/
def fetch_from_gemini_sentiment_intent (call : String → Except String String)
    (text harm_words : String) : String :=
  match call (buildPrompt text harm_words) with
  | .ok r => pyStrip r
  | .error e => "[Gemini API error: " ++ e ++ "]"

/-- First occurrence of the literal `m` followed by at least one
`[a-zA-Z0-9]` character, returning the maximal alphanumeric run after
it: `re.search(m + '([a-zA-Z0-9]+)', g)`.  As in the regex engine, a
position where the literal matches but no alphanumeric follows is
skipped and the scan resumes one character further on. -/
def findLabelAux (m : List Char) : List Char → Option String
  | [] => Option.none
  | c :: cs =>
      if m.isPrefixOf (c :: cs) then
        let run := ((c :: cs).drop m.length).takeWhile Char.isAlphanum
        if run.isEmpty then findLabelAux m cs else some (String.mk run)
      else findLabelAux m cs

def findLabel (m g : String) : Option String := findLabelAux m.toList g.toList

/-- `re.search(r'REASON=(.*)', g)` then `.group(1).strip()` with `""`
when absent: rest of the line after the first `REASON=` (the dot does
not cross a newline), stripped. -/
def reasonText (g : String) : String :=
  match findSubAux "REASON=".toList g.toList with
  | Option.none => ""
  | some rest => pyStrip (String.mk (rest.takeWhile (fun c => c != '\n')))

/-- The label-extraction block of `full_categorize` (app.py:207-217):
the three fields start out empty; nothing is attempted unless both
markers occur as substrings; a failure of the SENTIMENT regex raises
before any assignment, a failure of the INTENT regex raises after the
sentiment was assigned, and the `except: pass` keeps whatever was
assigned so far. -/
def parseGemini (g : String) : String × String × String :=
  if pyInStr "SENTIMENT=" g && pyInStr "INTENT=" g then
    match findLabel "SENTIMENT=" g with
    | Option.none => ("", "", "")
    | some s =>
        match findLabel "INTENT=" g with
        | Option.none => (s, "", "")
        | some i => (s, i, reasonText g)
  else ("", "", "")

/-! ### Article record and Provider Adapter (`fetch_all_news`, app.py:112-152) -/

/-- The common article record built by the provider adapter
(fields can be `None`, exactly as in the Python dicts). -/
structure Article where
  source : PyVal
  title : PyVal
  description : PyVal
  link : PyVal
  pub_date : PyVal
  keywords : PyVal
  api_type : String

/-- One provider configuration (app.py:42-60); the API keys and base
URLs only feed the abstracted HTTP request. -/
structure ApiConfig where
  name : String
  type : String
  base_url : String
  api_key : Option String

/-- `API_CONFIGS` (app.py:42-60). -/
def API_CONFIGS : List ApiConfig :=
  [⟨"NewsAPI", "newsapi", "https://newsapi.org/v2/everything", some "YOUR_FALLBACK_KEY"⟩,
   ⟨"NewsData.io", "newsdata", "https://newsdata.io/api/1/latest", some "YOUR_FALLBACK_KEY"⟩,
   ⟨"Wikipedia", "wikipedia", "https://en.wikipedia.org/w/api.php", Option.none⟩]

/-- Sequential `Except`-valued map: items are normalized one by one and
the first raised error aborts the whole request (the Python loop body is
not inside the provider try/except). -/
def mapEx (f : α → Except String β) : List α → Except String (List β)
  | [] => .ok []
  | x :: xs => do
      let y ← f x
      let ys ← mapEx f xs
      pure (y :: ys)

/-- Scan for the first `'>'` on the same line (`.` does not match a
newline), returning the text after it. -/
def findClose : List Char → Option (List Char)
  | [] => Option.none
  | c :: cs => if c == '>' then some cs else if c == '\n' then Option.none else findClose cs

/-- `re.sub("<.*?>", "", s)`: deletes each `<`…`>` span whose closing
`>` occurs on the same line.  The fuel argument (initially the length of
the text, an upper bound on the number of steps, each of which consumes
at least one character) makes the recursion structural. -/
def stripTagsAux : Nat → List Char → List Char
  | 0, cs => cs
  | _ + 1, [] => []
  | n + 1, c :: cs =>
      if c == '<' then
        match findClose cs with
        | some rest => stripTagsAux n rest
        | Option.none => c :: stripTagsAux n cs
      else c :: stripTagsAux n cs

def stripTags (s : String) : String := ⟨stripTagsAux s.toList.length s.toList⟩

/-- `re.sub` demands a string subject; anything else raises
`TypeError` (app.py:138). -/
def pyReSub (v : PyVal) : Except String String :=
  match v with
  | .str s => .ok (stripTags s)
  | _ => .error "TypeError: expected string or bytes-like object"

/-- Normalization of one Wikipedia search item (app.py:138). -/
def normalizeWikiItem (item : PyVal) : Except String Article := do
  let title ← pyGet item "title" .none
  let snippet ← pyGet item "snippet" (.str "")
  let desc ← pyReSub snippet
  let pageid ← pyGet item "pageid" .none
  pure { source := .str "Wikipedia", title := title, description := .str desc,
         link := .str ("https://en.wikipedia.org/?curid=" ++ pyStr pageid),
         pub_date := .str "", keywords := .list [], api_type := "wikipedia" }

/-- The Wikipedia branch (app.py:136-138). -/
def wikiArticles (data : PyVal) : Except String (List Article) := do
  let q ← pyGet data "query" (.dict [])
  let search ← pyGet q "search" (.list [])
  let items ← pyIterate search
  mapEx normalizeWikiItem items

/-- Normalization of one NewsData.io result item (app.py:142). -/
def normalizeNewsdataItem (item : PyVal) : Except String Article := do
  let sid ← pyGet item "source_id" .none
  let snm ← pyGet item "source_name" .none
  let title ← pyGet item "title" .none
  let desc ← pyGet item "description" .none
  let link ← pyGet item "link" .none
  let pd ← pyGet item "pubDate" .none
  let kw ← pyGet item "keywords" .none
  pure { source := pyOr sid (pyOr snm (.str "NewsData.io")), title := title,
         description := pyOr desc (.str ""), link := link, pub_date := pd,
         keywords := pyOr kw (.list []), api_type := "news" }

/-- The NewsData.io branch (app.py:139-142): a payload whose status is
not the string "success" contributes nothing (`continue`). -/
def newsdataArticles (data : PyVal) : Except String (List Article) := do
  let status ← pyGet data "status" .none
  if pyEqStr status "success" then do
    let results ← pyGet data "results" (.list [])
    let items ← pyIterate results
    mapEx normalizeNewsdataItem items
  else pure []

/-- Normalization of one NewsAPI item (app.py:146): note the nested
`item.get("source", {}).get("name", "NewsAPI")`. -/
def normalizeNewsapiItem (item : PyVal) : Except String Article := do
  let src ← pyGet item "source" (.dict [])
  let name ← pyGet src "name" (.str "NewsAPI")
  let title ← pyGet item "title" .none
  let desc ← pyGet item "description" .none
  let url ← pyGet item "url" .none
  let pa ← pyGet item "publishedAt" .none
  pure { source := name, title := title, description := pyOr desc (.str ""),
         link := url, pub_date := pa, keywords := .list [], api_type := "news" }

/-- The NewsAPI (else) branch (app.py:143-146). -/
def newsapiArticles (data : PyVal) : Except String (List Article) := do
  let status ← pyGet data "status" .none
  if pyEqStr status "ok" then do
    let arts ← pyGet data "articles" (.list [])
    let items ← pyIterate arts
    mapEx normalizeNewsapiItem items
  else pure []

/-- Per-provider response shaping, dispatched on the `type` tag exactly
as the if/elif/else of app.py:136-146. -/
def normalizeItems (apiType : String) (data : PyVal) : Except String (List Article) :=
  if apiType == "wikipedia" then wikiArticles data
  else if apiType == "newsdata" then newsdataArticles data
  else newsapiArticles data

/-- One provider's contribution.  `fetchOne` abstracts
`requests.get(...)`, `raise_for_status()` and `.json()`; any exception
there is caught by the per-provider try/except (app.py:127-133) and the
provider is skipped, while the normalization of a successful payload
runs outside that try/except and its errors propagate. -/
def providerArticles (fetchOne : ApiConfig → Except String PyVal)
    (cfg : ApiConfig) : Except String (List Article) :=
  match fetchOne cfg with
  | .error _ => .ok []
  | .ok data => normalizeItems cfg.type data

/-- `fetch_all_news` (app.py:112-152): providers are visited in
configuration order and their article lists concatenated. -/
def fetch_all_news (fetchOne : ApiConfig → Except String PyVal) :
    List ApiConfig → Except String (List Article)
  | [] => .ok []
  | cfg :: rest => do
      let arts ← providerArticles fetchOne cfg
      let more ← fetch_all_news fetchOne rest
      pure (arts ++ more)

/-! ### `full_categorize` (app.py:190-229) -/

/-- `article.get('keywords') or []` followed by the `for kw in …`
iteration of app.py:196, with `str(kw)` applied to each tag
(app.py:197).  A falsy value is replaced by the empty list; iterating a
truthy non-iterable (a nonzero integer, which `normalizeNewsdataItem`
passes through from a payload such as `{"keywords": 5}`) raises
`TypeError`, uncaught. -/
def tagStrings (kws : PyVal) : Except String (List String) :=
  (pyIterate (pyOr kws (.list []))).map (fun vs => vs.map pyStr)

/-- `(article.get('title') or '')` as an operand of the string
concatenation of app.py:201: a falsy value contributes the empty
string, a string is used as is, and a truthy non-string (e.g. an
integer title passed through by `normalizeNewsdataItem`) raises
`TypeError` at the `+`, uncaught. -/
def pyOrStr (v : PyVal) : Except String String :=
  if pyTruthy v then
    match v with
    | .str s => .ok s
    | _ => .error "TypeError: can only concatenate str"
  else .ok ""

/-- An article together with the classification fields that
`full_categorize` adds to the dict (app.py:221-226). -/
structure Categorized where
  article : Article
  harmful : Bool
  harmful_words : List String
  gemini_sentiment : String
  gemini_intent : String
  gemini_reason : String
  gemini_raw : String

/-- The pure part of the per-article body of `full_categorize`
(app.py:192-228), once the tag list and the two text operands have been
obtained: the keyword union, the model invocation and the label parse.
Note that the provider-tag scan (app.py:195-198) uses Python `in` —
plain substring containment on the lowered tag — while title and
description go through the word-boundary detector. -/
def categorizeRecord (call : String → Except String String) (article : Article)
    (tags : List String) (t1 t2 : String) : Categorized :=
  let harmful_in_title := detect_harmful_words article.title
  let harmful_in_desc := detect_harmful_words article.description
  let harmful_in_keywords :=
    tags.flatMap (fun kw => HARMFUL_KEYWORDS.filter (fun w => pyInStr w (lowerStr kw)))
  let harmful_words := (harmful_in_title ++ harmful_in_desc ++ harmful_in_keywords).dedup
  let raw := fetch_from_gemini_sentiment_intent call (t1 ++ ". " ++ t2)
    (if harmful_words.isEmpty then "None" else String.intercalate ", " harmful_words)
  let parsed := parseGemini raw
  { article := article,
    harmful := pyStartsWith parsed.2.1 "harmful",
    harmful_words := harmful_words,
    gemini_sentiment := parsed.1,
    gemini_intent := parsed.2.1,
    gemini_reason := parsed.2.2,
    gemini_raw := raw }

/-- The per-article body of `full_categorize` (app.py:192-228),
including its two uncaught raise points in source order: the tag
iteration of app.py:196, then the text concatenation of app.py:201. -/
def categorizeOne (call : String → Except String String) (article : Article) :
    Except String Categorized := do
  let tags ← tagStrings article.keywords
  let t1 ← pyOrStr article.title
  let t2 ← pyOrStr article.description
  pure (categorizeRecord call article tags t1 t2)

/-- `full_categorize(articles)` (app.py:190-229): a raise at any
article propagates out of the loop. -/
def full_categorize (call : String → Except String String)
    (articles : List Article) : Except String (List Categorized) :=
  mapEx (categorizeOne call) articles

/-! ### Trend Store (app.py:14-33, 69-108) -/

/-- Current counter of a row (0 when the row is absent). -/
def lookupCount : List (String × Nat) → String → Nat
  | [], _ => 0
  | (k, v) :: rest, key => if k = key then v else lookupCount rest key

/-- `INSERT ... VALUES (?, 1) ON CONFLICT(...) DO UPDATE SET c = c + 1`:
insert a fresh row seeded with 1, or increment the existing row. -/
def upsertCount : List (String × Nat) → String → List (String × Nat)
  | [], key => [(key, 1)]
  | (k, v) :: rest, key =>
      if k = key then (k, v + 1) :: rest else (k, v) :: upsertCount rest key

/-- The persistent state: the `source_profiles` and `keyword_trends`
tables, each a keyed counter (the `last_seen` timestamp column carries
no claim-relevant content and is not modelled). -/
structure Db where
  source_profiles : List (String × Nat)
  keyword_trends : List (String × Nat)

/-- The row key actually used for a source: the `if not source_name:`
guard of app.py:71-72 replaces a falsy (absent or empty) name by the
sentinel. -/
def sourceKey (source_name : PyVal) : String :=
  if pyTruthy source_name then pyStr source_name else "unknown_source"

/-- `update_source_profile(source_name)` (app.py:69-87). -/
def update_source_profile (db : Db) (source_name : PyVal) : Db :=
  { db with source_profiles := upsertCount db.source_profiles (sourceKey source_name) }

/-- `update_keyword_trends(keywords)` (app.py:90-108): one upsert per
keyword (an empty list returns at once, which the fold also does). -/
def update_keyword_trends (db : Db) (keywords : List String) : Db :=
  { db with keyword_trends := keywords.foldl upsertCount db.keyword_trends }

/-! ### `api_analyze` (app.py:243-273) -/

/-- The persistence loop of app.py:264-270: only harmful-flagged
articles update the source profile and then the keyword trends. -/
def persistHarmful (db : Db) (hits : List Categorized) : Db :=
  hits.foldl
    (fun d h =>
      if h.harmful then
        update_keyword_trends (update_source_profile d h.article.source) h.harmful_words
      else d)
    db

/-- The JSON body of the `analyze` response: the 400 payload is the
one-key object mapping "error" to the message, the 200 payload the full
classified list, and an uncaught exception surfaces as Flask's 500
error page. -/
inductive Body where
  | errorJson : String → Body
  | articles : List Categorized → Body
  | serverError : String → Body

/-- `api_analyze` (app.py:243-273), as a function of the two external
oracles, the stored counters and the `q` query parameter
(`request.args.get('q', None)` yields `none` when absent and `""` for
`?q=`; both are falsy). -/
def api_analyze (fetchOne : ApiConfig → Except String PyVal)
    (call : String → Except String String) (db : Db) (q : Option String) :
    Nat × Body × Db :=
  let query := q.getD ""
  if query.isEmpty then
    (400, Body.errorJson "A 'q' (query) parameter is required", db)
  else
    match fetch_all_news fetchOne API_CONFIGS with
    | .error e => (500, Body.serverError e, db)
    | .ok all_hits =>
        match full_categorize call all_hits with
        | .error e => (500, Body.serverError e, db)
        | .ok categorized_hits =>
            (200, Body.articles categorized_hits, persistHarmful db categorized_hits)

/-! ### Spec-side vocabulary and shape predicates used by the theorems -/

/-- Modelled from the spec's words for claim C3: "the union of the
Keyword Detector's output over the title, the description, and the
provider-supplied keyword tags", each of the three under the Detector's
whole-word rule.  This definition follows the SPEC sentence, to be
compared against the set the code computes. -/
def specDetectorUnion (a : Article) : List String :=
  (detect_harmful_words a.title ++ detect_harmful_words a.description ++
    ((tagStrings a.keywords).toOption.getD []).flatMap
      (fun kw => detect_harmful_words (.str kw))).dedup

/-- A Wikipedia search item on which normalization cannot raise: a dict
whose `snippet` field, when present, is a string (`re.sub` demands a
string subject). -/
def wellShapedWikiItem (item : PyVal) : Bool :=
  match item with
  | .dict kvs =>
      match kvs.lookup "snippet" with
      | some (.str _) => true
      | some _ => false
      | Option.none => true
  | _ => false

/-- A NewsData.io result item on which normalization cannot raise: any
dict (no field is used in a type-sensitive way). -/
def wellShapedNewsdataItem (item : PyVal) : Bool :=
  match item with
  | .dict _ => true
  | _ => false

/-- A NewsAPI item on which normalization cannot raise: a dict whose
`source` field, when present, is itself a dict (it receives a nested
`.get`). -/
def wellShapedNewsapiItem (item : PyVal) : Bool :=
  match item with
  | .dict kvs =>
      match kvs.lookup "source" with
      | some (.dict _) => true
      | some _ => false
      | Option.none => true
  | _ => false

/-- A decoded Wikipedia payload on which normalization cannot raise:
a dict whose `query` field (when present) is a dict, whose `search`
field (when reached) is a list of well-shaped items. -/
def wikiDataOk (data : PyVal) : Bool :=
  match data with
  | .dict kvs =>
      match kvs.lookup "query" with
      | Option.none => true
      | some (.dict qkvs) =>
          (match qkvs.lookup "search" with
           | Option.none => true
           | some (.list items) => items.all wellShapedWikiItem
           | some _ => false)
      | some _ => false
  | _ => false

/-- A decoded NewsData.io payload on which normalization cannot raise:
a dict; when its status is the string "success", the `results` field
(when present) is a list of dicts. -/
def newsdataDataOk (data : PyVal) : Bool :=
  match data with
  | .dict kvs =>
      if pyEqStr ((kvs.lookup "status").getD .none) "success" then
        match kvs.lookup "results" with
        | Option.none => true
        | some (.list items) => items.all wellShapedNewsdataItem
        | some _ => false
      else true
  | _ => false

/-- A decoded NewsAPI payload on which normalization cannot raise. -/
def newsapiDataOk (data : PyVal) : Bool :=
  match data with
  | .dict kvs =>
      if pyEqStr ((kvs.lookup "status").getD .none) "ok" then
        match kvs.lookup "articles" with
        | Option.none => true
        | some (.list items) => items.all wellShapedNewsapiItem
        | some _ => false
      else true
  | _ => false

/-- A decoded provider payload on which the corresponding normalization
branch cannot raise, dispatched like `normalizeItems`. -/
def wellShapedData (apiType : String) (data : PyVal) : Bool :=
  if apiType == "wikipedia" then wikiDataOk data
  else if apiType == "newsdata" then newsdataDataOk data
  else newsapiDataOk data

/-! ### Concrete fixtures used by witnesses and counterexamples -/

/-- A model oracle that always answers the same reply text. -/
def constCall (reply : String) : String → Except String String := fun _ => .ok reply

/-- A model oracle whose invocation always raises, with message `e`. -/
def errCall (e : String) : String → Except String String := fun _ => .error e

/-- The empty counter store. -/
def emptyDb : Db := ⟨[], []⟩

/-- An article whose only harmful-word evidence is the provider tag
"scammer" (title and description are empty). -/
def tagScammerArticle : Article :=
  ⟨.str "X", .str "", .str "", PyVal.none, PyVal.none, .list [.str "scammer"], "news"⟩

/-- A decoded NewsAPI payload whose single item carries a null-valued
`source` field. -/
def nullSourcePayload : PyVal :=
  .dict [("status", .str "ok"), ("articles", .list [.dict [("source", PyVal.none)]])]

/-- A provider environment in which the NewsAPI provider returns
`nullSourcePayload` and the other two providers fail at transport. -/
def badFetch : ApiConfig → Except String PyVal :=
  fun cfg => if cfg.name == "NewsAPI" then .ok nullSourcePayload
             else .error "connection refused"

/-- A provider environment in which every provider fails at transport. -/
def downFetch : ApiConfig → Except String PyVal := fun _ => .error "connection refused"

/-- A provider environment in which NewsData.io answers a payload whose
single item normalizes without error but carries an integer title, and
the other two providers fail at transport. -/
def intTitleFetch : ApiConfig → Except String PyVal :=
  fun cfg => if cfg.name == "NewsData.io" then
    .ok (.dict [("status", .str "success"),
                ("results", .list [.dict [("title", .int 7)]])])
  else .error "connection refused"

/-! ## Helper lemmas -/

theorem lookupCount_upsert_self (tbl : List (String × Nat)) (key : String) :
    lookupCount (upsertCount tbl key) key = lookupCount tbl key + 1 := by
  induction tbl with
  | nil => simp [upsertCount, lookupCount]
  | cons kv rest ih =>
      obtain ⟨k, v⟩ := kv
      by_cases h : k = key
      · subst h; simp [upsertCount, lookupCount]
      · simp [upsertCount, lookupCount, h, ih]

theorem lookupCount_upsert_ne (tbl : List (String × Nat)) (key s : String)
    (h : key ≠ s) : lookupCount (upsertCount tbl key) s = lookupCount tbl s := by
  induction tbl with
  | nil => simp [upsertCount, lookupCount, h]
  | cons kv rest ih =>
      obtain ⟨k, v⟩ := kv
      by_cases hk : k = key
      · subst hk; simp [upsertCount, lookupCount, h]
      · simp [upsertCount, lookupCount, hk, ih]

theorem mem_upsert_le (tbl : List (String × Nat)) (key k : String) (v : Nat)
    (h : (k, v) ∈ tbl) : ∃ v', v ≤ v' ∧ (k, v') ∈ upsertCount tbl key := by
  induction tbl with
  | nil => cases h
  | cons kv rest ih =>
      obtain ⟨a, b⟩ := kv
      rcases List.mem_cons.mp h with heq | hrest
      · rw [Prod.mk.injEq] at heq
        obtain ⟨rfl, rfl⟩ := heq
        by_cases ha : k = key
        · subst ha; exact ⟨v + 1, Nat.le_succ v, by simp [upsertCount]⟩
        · exact ⟨v, le_refl v, by simp [upsertCount, ha]⟩
      · by_cases ha : a = key
        · subst ha; exact ⟨v, le_refl v, by simp [upsertCount, hrest]⟩
        · obtain ⟨v', hle, hmem⟩ := ih hrest
          exact ⟨v', hle, by simp [upsertCount, ha, hmem]⟩

theorem mem_foldl_upsert_le (kws : List String) (tbl : List (String × Nat))
    (k : String) (v : Nat) (h : (k, v) ∈ tbl) :
    ∃ v', v ≤ v' ∧ (k, v') ∈ kws.foldl upsertCount tbl := by
  induction kws generalizing tbl v with
  | nil => exact ⟨v, le_refl v, h⟩
  | cons w ws ih =>
      obtain ⟨v₁, hle₁, hmem₁⟩ := mem_upsert_le tbl w k v h
      obtain ⟨v', hle', hmem'⟩ := ih (upsertCount tbl w) v₁ hmem₁
      exact ⟨v', le_trans hle₁ hle', by simpa [List.foldl_cons] using hmem'⟩

theorem persistHarmful_cons (db : Db) (h : Categorized) (t : List Categorized) :
    persistHarmful db (h :: t) =
      persistHarmful
        (if h.harmful then
          update_keyword_trends (update_source_profile db h.article.source) h.harmful_words
         else db) t := rfl

theorem persist_sources_count (hits : List Categorized) :
    ∀ (db : Db) (s : String),
      lookupCount (persistHarmful db hits).source_profiles s =
        lookupCount db.source_profiles s +
          (hits.filter (fun h => h.harmful && (sourceKey h.article.source == s))).length := by
  induction hits with
  | nil => intro db s; simp [persistHarmful]
  | cons h t ih =>
      intro db s
      rw [persistHarmful_cons]
      by_cases hh : h.harmful = true
      · rw [if_pos hh, ih]
        have hsrc : (update_keyword_trends (update_source_profile db h.article.source)
            h.harmful_words).source_profiles =
            upsertCount db.source_profiles (sourceKey h.article.source) := rfl
        rw [hsrc]
        by_cases hks : sourceKey h.article.source = s
        · rw [hks, lookupCount_upsert_self]
          simp [List.filter_cons, hh, hks]
          omega
        · rw [lookupCount_upsert_ne _ _ _ hks]
          have : (sourceKey h.article.source == s) = false := by
            simpa using hks
          simp [List.filter_cons, hh, this]
      · rw [if_neg hh]
        have hb : h.harmful = false := by
          cases hcase : h.harmful
          · rfl
          · exact absurd hcase hh
        rw [ih]
        simp [List.filter_cons, hb]

theorem persist_sources_le (hits : List Categorized) :
    ∀ (db : Db) (k : String) (v : Nat), (k, v) ∈ db.source_profiles →
      ∃ v', v ≤ v' ∧ (k, v') ∈ (persistHarmful db hits).source_profiles := by
  induction hits with
  | nil => intro db k v h; exact ⟨v, le_refl v, h⟩
  | cons h t ih =>
      intro db k v hmem
      rw [persistHarmful_cons]
      by_cases hh : h.harmful = true
      · rw [if_pos hh]
        obtain ⟨v₁, hle₁, hmem₁⟩ :=
          mem_upsert_le db.source_profiles (sourceKey h.article.source) k v hmem
        have hmem₁' : (k, v₁) ∈ (update_keyword_trends
            (update_source_profile db h.article.source) h.harmful_words).source_profiles := hmem₁
        obtain ⟨v', hle', hmem'⟩ := ih _ k v₁ hmem₁'
        exact ⟨v', le_trans hle₁ hle', hmem'⟩
      · rw [if_neg hh]; exact ih db k v hmem

theorem persist_trends_le (hits : List Categorized) :
    ∀ (db : Db) (k : String) (v : Nat), (k, v) ∈ db.keyword_trends →
      ∃ v', v ≤ v' ∧ (k, v') ∈ (persistHarmful db hits).keyword_trends := by
  induction hits with
  | nil => intro db k v h; exact ⟨v, le_refl v, h⟩
  | cons h t ih =>
      intro db k v hmem
      rw [persistHarmful_cons]
      by_cases hh : h.harmful = true
      · rw [if_pos hh]
        obtain ⟨v₁, hle₁, hmem₁⟩ :=
          mem_foldl_upsert_le h.harmful_words db.keyword_trends k v hmem
        have hmem₁' : (k, v₁) ∈ (update_keyword_trends
            (update_source_profile db h.article.source) h.harmful_words).keyword_trends := hmem₁
        obtain ⟨v', hle', hmem'⟩ := ih _ k v₁ hmem₁'
        exact ⟨v', le_trans hle₁ hle', hmem'⟩
      · rw [if_neg hh]; exact ih db k v hmem

theorem persist_no_harmful (hits : List Categorized) :
    ∀ (db : Db), (∀ h ∈ hits, h.harmful = false) → persistHarmful db hits = db := by
  induction hits with
  | nil => intro db _; rfl
  | cons h t ih =>
      intro db hall
      rw [persistHarmful_cons, if_neg (by simp [hall h (List.mem_cons_self h t)])]
      exact ih db (fun x hx => hall x (List.mem_cons_of_mem h hx))

theorem categorizeOne_ok_elim (call : String → Except String String) (a : Article)
    (c : Categorized) (h : categorizeOne call a = .ok c) :
    ∃ tags t1 t2, tagStrings a.keywords = .ok tags ∧ pyOrStr a.title = .ok t1 ∧
      pyOrStr a.description = .ok t2 ∧ c = categorizeRecord call a tags t1 t2 := by
  unfold categorizeOne at h
  cases htags : tagStrings a.keywords with
  | error e => rw [htags] at h; simp [Bind.bind, Except.bind] at h
  | ok tags =>
      rw [htags] at h
      simp only [Bind.bind, Except.bind] at h
      cases h1 : pyOrStr a.title with
      | error e => rw [h1] at h; simp at h
      | ok t1 =>
          rw [h1] at h
          simp only at h
          cases h2 : pyOrStr a.description with
          | error e => rw [h2] at h; simp at h
          | ok t2 =>
              rw [h2] at h
              simp only [Pure.pure, Except.pure, Except.ok.injEq] at h
              exact ⟨tags, t1, t2, rfl, rfl, rfl, h.symm⟩

theorem api_analyze_db_shape (f : ApiConfig → Except String PyVal)
    (c : String → Except String String) (db : Db) (q : Option String) :
    ∃ hits, (api_analyze f c db q).2.2 = persistHarmful db hits := by
  unfold api_analyze
  by_cases hq : (q.getD "").isEmpty
  · exact ⟨[], by simp [hq, persistHarmful]⟩
  · cases hfa : fetch_all_news f API_CONFIGS with
    | error e => exact ⟨[], by simp [hq, hfa, persistHarmful]⟩
    | ok arts =>
        cases hfc : full_categorize c arts with
        | error e => exact ⟨[], by simp [hq, hfa, hfc, persistHarmful]⟩
        | ok hits => exact ⟨hits, by simp [hq, hfa, hfc]⟩

/-! ## Claim theorems -/

/-- Claim C4 (confirmed): the reply
`SENTIMENT=neutral INTENT=harmless1 REASON=no issue found` parses to
sentiment "neutral", intent "harmless1", reason "no issue found"; every
article record produced under an oracle answering that reply carries
exactly those fields and is not flagged harmful; and every produced
record is flagged harmful exactly when its parsed intent label starts
with the literal prefix "harmful". -/
theorem C4_roundtrip_and_harmful_rule :
    parseGemini "SENTIMENT=neutral INTENT=harmless1 REASON=no issue found" =
      ("neutral", "harmless1", "no issue found") ∧
    (∀ (a : Article) (c : Categorized),
        categorizeOne (constCall "SENTIMENT=neutral INTENT=harmless1 REASON=no issue found")
            a = .ok c →
        c.gemini_sentiment = "neutral" ∧ c.gemini_intent = "harmless1" ∧
        c.gemini_reason = "no issue found" ∧ c.harmful = false) ∧
    (∀ (call : String → Except String String) (a : Article) (c : Categorized),
        categorizeOne call a = .ok c →
        c.harmful = pyStartsWith c.gemini_intent "harmful") := by
  refine ⟨by decide, ?_, ?_⟩
  · intro a c h
    obtain ⟨tags, t1, t2, -, -, -, rfl⟩ := categorizeOne_ok_elim _ a c h
    exact ⟨rfl, rfl, rfl, rfl⟩
  · intro call a c h
    obtain ⟨tags, t1, t2, -, -, -, rfl⟩ := categorizeOne_ok_elim call a c h
    rfl

/-- Witness for C4: the canonical-reply clause applied to the concrete
"scammer"-tagged article, whose classification succeeds. -/
theorem C4_witness :
    (⟨tagScammerArticle, false, ["scam"], "neutral", "harmless1", "no issue found",
      "SENTIMENT=neutral INTENT=harmless1 REASON=no issue found"⟩ :
        Categorized).gemini_sentiment = "neutral" ∧
    (⟨tagScammerArticle, false, ["scam"], "neutral", "harmless1", "no issue found",
      "SENTIMENT=neutral INTENT=harmless1 REASON=no issue found"⟩ :
        Categorized).harmful = false := by
  have hok : categorizeOne
      (constCall "SENTIMENT=neutral INTENT=harmless1 REASON=no issue found")
      tagScammerArticle =
      .ok ⟨tagScammerArticle, false, ["scam"], "neutral", "harmless1", "no issue found",
           "SENTIMENT=neutral INTENT=harmless1 REASON=no issue found"⟩ := rfl
  exact ⟨(C4_roundtrip_and_harmful_rule.2.1 _ _ hok).1,
         (C4_roundtrip_and_harmful_rule.2.1 _ _ hok).2.2.2⟩

/-- Claim C7 (confirmed): the two counter tables are increment-only —
every row of either table survives `update_source_profile`,
`update_keyword_trends`, the persistence loop, and a whole
`api_analyze` call with a counter at least as large; an analyze result
that flags a source as harmful in N articles adds exactly N to that
source's `flag_count` (a fresh row starts at 1 = 0 + 1); articles not
flagged harmful leave the store untouched. -/
theorem C7_counters_increment_only :
    (∀ (db : Db) (hits : List Categorized) (s : String),
        lookupCount (persistHarmful db hits).source_profiles s =
          lookupCount db.source_profiles s +
            (hits.filter (fun h => h.harmful && (sourceKey h.article.source == s))).length) ∧
    (∀ (db : Db) (hits : List Categorized) (k : String) (v : Nat),
        (k, v) ∈ db.source_profiles →
        ∃ v', v ≤ v' ∧ (k, v') ∈ (persistHarmful db hits).source_profiles) ∧
    (∀ (db : Db) (hits : List Categorized) (k : String) (v : Nat),
        (k, v) ∈ db.keyword_trends →
        ∃ v', v ≤ v' ∧ (k, v') ∈ (persistHarmful db hits).keyword_trends) ∧
    (∀ (db : Db) (v : PyVal) (k : String) (c : Nat), (k, c) ∈ db.source_profiles →
        ∃ c', c ≤ c' ∧ (k, c') ∈ (update_source_profile db v).source_profiles) ∧
    (∀ (db : Db) (kws : List String) (k : String) (c : Nat), (k, c) ∈ db.keyword_trends →
        ∃ c', c ≤ c' ∧ (k, c') ∈ (update_keyword_trends db kws).keyword_trends) ∧
    (∀ (db : Db) (hits : List Categorized),
        (∀ h ∈ hits, h.harmful = false) → persistHarmful db hits = db) ∧
    (∀ (f : ApiConfig → Except String PyVal) (c : String → Except String String)
        (db : Db) (q : Option String),
        ∃ hits, (api_analyze f c db q).2.2 = persistHarmful db hits) := by
  refine ⟨fun db hits s => persist_sources_count hits db s,
          fun db hits k v h => persist_sources_le hits db k v h,
          fun db hits k v h => persist_trends_le hits db k v h,
          fun db v k c h => mem_upsert_le db.source_profiles (sourceKey v) k c h,
          fun db kws k c h => mem_foldl_upsert_le kws db.keyword_trends k c h,
          fun db hits h => persist_no_harmful hits db h,
          fun f c db q => api_analyze_db_shape f c db q⟩

/-- Witness for C7: a concrete analyze-style persistence run — flagging
the same source (named "X") twice from the empty store yields
`flag_count` 2 for its row, and a non-harmful batch leaves the store
untouched. -/
theorem C7_witness :
    lookupCount (persistHarmful emptyDb
      [⟨tagScammerArticle, true, ["scam"], "", "harmful1", "", ""⟩,
       ⟨tagScammerArticle, true, ["scam"], "", "harmful1", "", ""⟩]).source_profiles "X" = 2 ∧
    persistHarmful emptyDb [⟨tagScammerArticle, false, [], "", "", "", ""⟩] = emptyDb := by
  constructor
  · rw [C7_counters_increment_only.1 emptyDb _ "X"]; decide
  · exact C7_counters_increment_only.2.2.2.2.2.1 emptyDb _
      (fun h hm => by
        rcases List.mem_singleton.mp hm with rfl
        rfl)

theorem fetch_all_news_as_mapEx (f : ApiConfig → Except String PyVal) :
    ∀ configs, fetch_all_news f configs =
      Except.map List.flatten (mapEx (providerArticles f) configs) := by
  intro configs
  induction configs with
  | nil => rfl
  | cons cfg rest ih =>
      cases hp : providerArticles f cfg with
      | error e => simp [fetch_all_news, mapEx, hp, Except.map, Except.bind, Bind.bind]
      | ok arts =>
          cases hm : mapEx (providerArticles f) rest with
          | error e =>
              simp [fetch_all_news, mapEx, hp, hm, Except.map, Except.bind, Bind.bind, ih]
          | ok ys =>
              simp [fetch_all_news, mapEx, hp, hm, Except.map, Except.bind, Bind.bind, ih,
                Pure.pure, Except.pure, List.flatten]

theorem providerArticles_of_error (f : ApiConfig → Except String PyVal) (cfg : ApiConfig)
    (e : String) (h : f cfg = .error e) : providerArticles f cfg = .ok [] := by
  unfold providerArticles; rw [h]

theorem newsdataArticles_bad_status (kvs : List (String × PyVal))
    (h : pyEqStr ((kvs.lookup "status").getD PyVal.none) "success" = false) :
    newsdataArticles (.dict kvs) = .ok [] := by
  cases hl : kvs.lookup "status" with
  | none =>
      rw [hl] at h
      simp only [Option.getD_none] at h
      simp [newsdataArticles, pyGet, hl, Except.bind, Bind.bind, h, Pure.pure, Except.pure]
  | some w =>
      rw [hl] at h
      simp only [Option.getD_some] at h
      simp [newsdataArticles, pyGet, hl, Except.bind, Bind.bind, h, Pure.pure, Except.pure]

theorem newsapiArticles_bad_status (kvs : List (String × PyVal))
    (h : pyEqStr ((kvs.lookup "status").getD PyVal.none) "ok" = false) :
    newsapiArticles (.dict kvs) = .ok [] := by
  cases hl : kvs.lookup "status" with
  | none =>
      rw [hl] at h
      simp only [Option.getD_none] at h
      simp [newsapiArticles, pyGet, hl, Except.bind, Bind.bind, h, Pure.pure, Except.pure]
  | some w =>
      rw [hl] at h
      simp only [Option.getD_some] at h
      simp [newsapiArticles, pyGet, hl, Except.bind, Bind.bind, h, Pure.pure, Except.pure]

theorem fetch_all_news_skip_failed (f : ApiConfig → Except String PyVal)
    (cfg : ApiConfig) (e : String) (h : f cfg = .error e) :
    ∀ pre post, fetch_all_news f (pre ++ cfg :: post) = fetch_all_news f (pre ++ post) := by
  intro pre post
  induction pre with
  | nil =>
      cases hm : fetch_all_news f post with
      | error e' => simp [fetch_all_news, providerArticles, h, hm, Except.bind, Bind.bind, Pure.pure, Except.pure]
      | ok l => simp [fetch_all_news, providerArticles, h, hm, Except.bind, Bind.bind, Pure.pure, Except.pure]
  | cons c pre' ih =>
      cases hp : providerArticles f c with
      | error e' => simp [fetch_all_news, hp, Except.bind, Bind.bind]
      | ok arts => simp [fetch_all_news, hp, Except.bind, Bind.bind, ih]

/-- Claim C6 (confirmed): the aggregate of `fetch_all_news` is the
concatenation (join) of the per-provider article lists in configuration
order; a transport exception makes that provider contribute the empty
list, as does a non-success status payload for either news branch, and
a provider whose request raised can be cut out of the configuration
list without changing anything else. -/
theorem C6_provider_failure_isolation :
    (∀ (f : ApiConfig → Except String PyVal) (configs : List ApiConfig),
        fetch_all_news f configs =
          Except.map List.flatten (mapEx (providerArticles f) configs)) ∧
    (∀ (f : ApiConfig → Except String PyVal) (cfg : ApiConfig) (e : String),
        f cfg = .error e → providerArticles f cfg = .ok []) ∧
    (∀ kvs : List (String × PyVal),
        pyEqStr ((kvs.lookup "status").getD PyVal.none) "success" = false →
        newsdataArticles (.dict kvs) = .ok []) ∧
    (∀ kvs : List (String × PyVal),
        pyEqStr ((kvs.lookup "status").getD PyVal.none) "ok" = false →
        newsapiArticles (.dict kvs) = .ok []) ∧
    (∀ (f : ApiConfig → Except String PyVal) (cfg : ApiConfig) (e : String),
        f cfg = .error e →
        ∀ pre post, fetch_all_news f (pre ++ cfg :: post) = fetch_all_news f (pre ++ post)) :=
  ⟨fun f configs => fetch_all_news_as_mapEx f configs,
   fun f cfg e h => providerArticles_of_error f cfg e h,
   fun kvs h => newsdataArticles_bad_status kvs h,
   fun kvs h => newsapiArticles_bad_status kvs h,
   fun f cfg e h pre post => fetch_all_news_skip_failed f cfg e h pre post⟩

/-- Witness for C6: with every provider down, each provider contributes
the empty list, a concrete bad-status NewsData.io payload contributes
the empty list, and removing a failed provider leaves the aggregate
unchanged. -/
theorem C6_witness :
    providerArticles downFetch ⟨"NewsAPI", "newsapi", "u", Option.none⟩ = .ok [] ∧
    newsdataArticles (.dict [("status", .str "error")]) = .ok [] ∧
    newsapiArticles (.dict []) = .ok [] ∧
    fetch_all_news downFetch ([] ++ ⟨"Wikipedia", "wikipedia", "u", Option.none⟩ :: []) =
      fetch_all_news downFetch ([] ++ []) :=
  ⟨C6_provider_failure_isolation.2.1 downFetch _ "connection refused" rfl,
   C6_provider_failure_isolation.2.2.1 _ (by decide),
   C6_provider_failure_isolation.2.2.2.1 _ (by decide),
   C6_provider_failure_isolation.2.2.2.2 downFetch _ "connection refused" rfl [] []⟩

/-- Counterexample for claim C1: a non-empty query does not always
return 200.  With NewsAPI answering a payload whose single item has a
null-valued `source` field, normalization raises outside the
per-provider try/except and the request fails with 500; and with
NewsData.io answering a payload whose single item normalizes fine but
carries an integer title, the classification loop raises at the text
concatenation (app.py:201) and the request again fails with 500. -/
theorem C1_counterexample :
    (api_analyze badFetch (constCall "") emptyDb (some "oil")).1 = 500 ∧
    (api_analyze badFetch (constCall "") emptyDb (some "oil")).1 ≠ 200 ∧
    (api_analyze intTitleFetch (constCall "") emptyDb (some "oil")).1 = 500 := by
  refine ⟨by decide, by decide, by decide⟩

/-- Claim C1 as amended: a missing or empty `q` yields 400 with the
one-key "error" JSON body, leaves the store untouched and consults
neither oracle; a non-empty query for which fetching-and-normalization
and the per-article classification loop both complete without raising
yields 200 with the full classified list (and the corresponding
persistence). -/
theorem C1_analyze_status_amended :
    (∀ (f : ApiConfig → Except String PyVal) (c : String → Except String String) (db : Db),
        api_analyze f c db Option.none =
          (400, Body.errorJson "A 'q' (query) parameter is required", db)) ∧
    (∀ (f : ApiConfig → Except String PyVal) (c : String → Except String String) (db : Db),
        api_analyze f c db (some "") =
          (400, Body.errorJson "A 'q' (query) parameter is required", db)) ∧
    (∀ (f₁ : ApiConfig → Except String PyVal) (c₁ : String → Except String String)
        (f₂ : ApiConfig → Except String PyVal) (c₂ : String → Except String String)
        (db : Db) (q : Option String), (q.getD "").isEmpty = true →
        api_analyze f₁ c₁ db q = api_analyze f₂ c₂ db q) ∧
    (∀ (f : ApiConfig → Except String PyVal) (c : String → Except String String)
        (db : Db) (s : String) (arts : List Article) (hits : List Categorized),
        s.isEmpty = false → fetch_all_news f API_CONFIGS = .ok arts →
        full_categorize c arts = .ok hits →
        api_analyze f c db (some s) =
          (200, Body.articles hits, persistHarmful db hits)) := by
  refine ⟨fun f c db => rfl, fun f c db => rfl, ?_, ?_⟩
  · intro f₁ c₁ f₂ c₂ db q hq
    unfold api_analyze
    simp [hq]
  · intro f c db s arts hits hs hfa hfc
    unfold api_analyze
    simp [hs, hfa, hfc]

/-- Witness for C1 (amended): the empty-query clauses at a concrete
store, and the 200 clause in the all-providers-down environment (whose
aggregate is the empty list, classified to the empty list). -/
theorem C1_witness :
    api_analyze downFetch (constCall "") emptyDb (some "") =
      (400, Body.errorJson "A 'q' (query) parameter is required", emptyDb) ∧
    api_analyze downFetch (constCall "") emptyDb Option.none =
      api_analyze badFetch (constCall "x") emptyDb Option.none ∧
    api_analyze downFetch (constCall "") emptyDb (some "oil") =
      (200, Body.articles [], persistHarmful emptyDb []) :=
  ⟨C1_analyze_status_amended.2.1 downFetch (constCall "") emptyDb,
   C1_analyze_status_amended.2.2.1 downFetch (constCall "") badFetch (constCall "x")
     emptyDb Option.none (by decide),
   C1_analyze_status_amended.2.2.2 downFetch (constCall "") emptyDb "oil" [] []
     (by decide) rfl rfl⟩

theorem strToList_append (a b : String) : (a ++ b).toList = a.toList ++ b.toList :=
  String.data_append a b

theorem findLabelAux_ne_empty (m : List Char) :
    ∀ (g : List Char) (s : String), findLabelAux m g = some s → s ≠ "" := by
  intro g
  induction g with
  | nil => intro s h; simp [findLabelAux] at h
  | cons c cs ih =>
      intro s h
      by_cases hp : m.isPrefixOf (c :: cs)
      · rw [findLabelAux, if_pos hp] at h
        by_cases hr : (((c :: cs).drop m.length).takeWhile Char.isAlphanum).isEmpty
        · rw [if_pos hr] at h; exact ih s h
        · rw [if_neg hr] at h
          have hs : s = String.mk (((c :: cs).drop m.length).takeWhile Char.isAlphanum) :=
            (Option.some.injEq .. ▸ h).symm
          intro hemp
          apply hr
          have : (((c :: cs).drop m.length).takeWhile Char.isAlphanum) = [] := by
            have := congrArg String.data (hs ▸ hemp)
            simpa using this
          simp [this]
      · rw [findLabelAux, if_neg hp] at h; exact ih s h

theorem findLabel_ne_empty (m g : String) (s : String) (h : findLabel m g = some s) :
    s ≠ "" := findLabelAux_ne_empty m.toList g.toList s h

theorem reasonText_of_no_marker (g : String) (h : pyInStr "REASON=" g = false) :
    reasonText g = "" := by
  unfold reasonText
  cases hf : findSubAux "REASON=".toList g.toList with
  | none => rfl
  | some rest => rw [pyInStr, hf] at h; simp at h

theorem parseGemini_no_markers (g : String)
    (h : pyInStr "SENTIMENT=" g = false ∨ pyInStr "INTENT=" g = false) :
    parseGemini g = ("", "", "") := by
  rcases h with h | h <;> simp [parseGemini, h]

theorem parseGemini_empty_iff (g : String) :
    parseGemini g = ("", "", "") ↔
      (pyInStr "SENTIMENT=" g = false ∨ pyInStr "INTENT=" g = false ∨
        findLabel "SENTIMENT=" g = Option.none) := by
  by_cases h1 : pyInStr "SENTIMENT=" g = true
  · by_cases h2 : pyInStr "INTENT=" g = true
    · cases hS : findLabel "SENTIMENT=" g with
      | none => simp [parseGemini, h1, h2, hS]
      | some s =>
          have hsne := findLabel_ne_empty _ _ _ hS
          cases hI : findLabel "INTENT=" g with
          | none =>
              simp only [parseGemini, h1, h2, Bool.and_self, if_pos, hS, hI]
              constructor
              · intro hc
                exact absurd (congrArg Prod.fst hc) hsne
              · intro hc
                rcases hc with hc | hc | hc
                · exact Bool.noConfusion hc
                · exact Bool.noConfusion hc
                · exact Option.noConfusion hc
          | some i =>
              simp only [parseGemini, h1, h2, Bool.and_self, if_pos, hS, hI]
              constructor
              · intro hc
                exact absurd (congrArg Prod.fst hc) hsne
              · intro hc
                rcases hc with hc | hc | hc
                · exact Bool.noConfusion hc
                · exact Bool.noConfusion hc
                · exact Option.noConfusion hc
    · have h2' : pyInStr "INTENT=" g = false := by
        cases hcase : pyInStr "INTENT=" g
        · rfl
        · exact absurd hcase h2
      simp [parseGemini_no_markers g (Or.inr h2'), h2']
  · have h1' : pyInStr "SENTIMENT=" g = false := by
      cases hcase : pyInStr "SENTIMENT=" g
      · rfl
      · exact absurd hcase h1
    simp [parseGemini_no_markers g (Or.inl h1'), h1']

theorem parseGemini_parsed (g s i : String)
    (hin1 : pyInStr "SENTIMENT=" g = true) (hin2 : pyInStr "INTENT=" g = true)
    (h1 : findLabel "SENTIMENT=" g = some s) (h2 : findLabel "INTENT=" g = some i) :
    parseGemini g = (s, i, reasonText g) := by
  simp [parseGemini, hin1, hin2, h1, h2]

/-- Counterexample for claim C10: the reply `SENTIMENT= INTENT=harmful1`
contains both markers and no `REASON=` marker, yet all three parsed
fields are empty (the SENTIMENT regex finds no alphanumeric run, the
`except` swallows the failure) and the `harmful1` intent is lost. -/
theorem C10_counterexample :
    pyInStr "SENTIMENT=" "SENTIMENT= INTENT=harmful1" = true ∧
    pyInStr "INTENT=" "SENTIMENT= INTENT=harmful1" = true ∧
    pyInStr "REASON=" "SENTIMENT= INTENT=harmful1" = false ∧
    parseGemini "SENTIMENT= INTENT=harmful1" = ("", "", "") := by
  refine ⟨by decide, by decide, by decide, by decide⟩

/-- Claim C10 as amended: when both markers occur and each regex finds a
label (the marker is somewhere followed by at least one alphanumeric
character) while no `REASON=` occurs, the sentiment and intent labels
are parsed and only the reason is empty; and the all-fields-empty
outcome happens exactly when a marker is missing as a substring or the
SENTIMENT regex finds no label. -/
theorem C10_partial_parse_amended :
    (∀ g s i : String,
        pyInStr "SENTIMENT=" g = true → pyInStr "INTENT=" g = true →
        findLabel "SENTIMENT=" g = some s → findLabel "INTENT=" g = some i →
        pyInStr "REASON=" g = false →
        parseGemini g = (s, i, "")) ∧
    (∀ g : String, parseGemini g = ("", "", "") ↔
        (pyInStr "SENTIMENT=" g = false ∨ pyInStr "INTENT=" g = false ∨
          findLabel "SENTIMENT=" g = Option.none)) := by
  constructor
  · intro g s i hin1 hin2 h1 h2 hr
    rw [parseGemini_parsed g s i hin1 hin2 h1 h2, reasonText_of_no_marker g hr]
  · exact parseGemini_empty_iff

/-- Witness for C10 (amended): a marker-complete reply without
`REASON=` keeps its two labels, and a reply with no markers at all falls
into the all-empty case. -/
theorem C10_witness :
    parseGemini "SENTIMENT=neutral INTENT=harmful2" = ("neutral", "harmful2", "") ∧
    (parseGemini "no labels at all" = ("", "", "") ↔
      (pyInStr "SENTIMENT=" "no labels at all" = false ∨
        pyInStr "INTENT=" "no labels at all" = false ∨
        findLabel "SENTIMENT=" "no labels at all" = Option.none)) :=
  ⟨C10_partial_parse_amended.1 "SENTIMENT=neutral INTENT=harmful2" "neutral" "harmful2"
      (by decide) (by decide) (by decide) (by decide) (by decide),
   C10_partial_parse_amended.2 "no labels at all"⟩

theorem findSub_skip_front (c0 : Char) (M : List Char) (hM : M.head? = some c0) :
    ∀ (a b : List Char), c0 ∉ a →
      (findSubAux M (a ++ b)).isSome = true → (findSubAux M b).isSome = true := by
  intro a
  induction a with
  | nil => intro b _ h; simpa using h
  | cons x a' ih =>
      intro b hna h
      obtain ⟨M', rfl⟩ : ∃ M', M = c0 :: M' := by
        cases M with
        | nil => cases hM
        | cons d M' =>
            have hd : d = c0 := by simpa using hM
            exact ⟨M', by rw [hd]⟩
      have hx : c0 ≠ x := by
        intro hh
        exact hna (hh ▸ List.mem_cons_self x a')
      have hpf : (c0 :: M').isPrefixOf (x :: (a' ++ b)) = false := by
        simp [List.isPrefixOf, beq_eq_false_iff_ne, hx]
      rw [List.cons_append, findSubAux, hpf] at h
      simp only [Bool.false_eq_true, if_false] at h
      exact ih b (fun hmem => hna (List.mem_cons_of_mem x hmem)) h

theorem isPrefixOf_snoc_elim (m xs : List Char) (z : Char)
    (h : m.isPrefixOf (xs ++ [z]) = true) : m.isPrefixOf xs = true ∨ m = xs ++ [z] := by
  have h' := List.isPrefixOf_iff_prefix.mp h
  rcases List.prefix_concat_iff.mp h' with heq | hpre
  · exact Or.inr heq
  · exact Or.inl (List.isPrefixOf_iff_prefix.mpr hpre)

theorem findSub_drop_last (M : List Char) (z : Char) (hMne : M ≠ [])
    (hlast : M.getLast? ≠ some z) :
    ∀ e : List Char, (findSubAux M (e ++ [z])).isSome = true →
      (findSubAux M e).isSome = true := by
  intro e
  induction e with
  | nil =>
      intro h
      by_cases hp : M.isPrefixOf [z]
      · exfalso
        rcases isPrefixOf_snoc_elim M [] z hp with hnil | heq
        · exact hMne (List.prefix_nil.mp (List.isPrefixOf_iff_prefix.mp hnil))
        · exact hlast (by rw [heq]; rfl)
      · exfalso
        have hMe : M.isEmpty = false := by
          cases M with
          | nil => exact absurd rfl hMne
          | cons a l => rfl
        rw [List.nil_append, findSubAux] at h
        simp only [hp, Bool.false_eq_true, if_false] at h
        rw [findSubAux, hMe] at h
        simp at h
  | cons x e' ih =>
      intro h
      rw [List.cons_append] at h
      by_cases hp : M.isPrefixOf (x :: (e' ++ [z]))
      · rcases isPrefixOf_snoc_elim M (x :: e') z (by rwa [List.cons_append]) with hpp | heq
        · rw [findSubAux, hpp]
          simp
        · exfalso
          exact hlast (by rw [heq, List.getLast?_concat])
      · rw [findSubAux, if_neg hp] at h
        have h'' := ih h
        rw [findSubAux]
        by_cases hx : M.isPrefixOf (x :: e')
        · simp [hx]
        · simp [hx, h'']

theorem errorString_no_marker (e : String) (h : pyInStr "SENTIMENT=" e = false) :
    pyInStr "SENTIMENT=" ("[Gemini API error: " ++ e ++ "]") = false := by
  by_contra hc
  rw [Bool.not_eq_false] at hc
  rw [pyInStr, strToList_append, strToList_append] at hc
  have h1 := findSub_skip_front 'S' "SENTIMENT=".toList rfl
    "[Gemini API error: ".toList (e.toList ++ "]".toList) (by decide) hc
  have h2 := findSub_drop_last "SENTIMENT=".toList ']' (by decide) (by decide) e.toList h1
  rw [pyInStr, h2] at h
  cases h

/-- Counterexample for claim C5: a model-call failure is indeed caught
and embedded as `[Gemini API error: ...]`, but the claim that this
string "likewise parses to empty labels and harmful=false" fails for
every failure whose message itself contains the markers — here the
parse extracts `harmful1` and the article IS flagged harmful. -/
theorem C5_counterexample :
    (categorizeOne (errCall "SENTIMENT=negative2 INTENT=harmful1 REASON=refused")
        tagScammerArticle).map (fun c => c.gemini_raw) =
      .ok "[Gemini API error: SENTIMENT=negative2 INTENT=harmful1 REASON=refused]" ∧
    (categorizeOne (errCall "SENTIMENT=negative2 INTENT=harmful1 REASON=refused")
        tagScammerArticle).map (fun c => c.gemini_intent) = .ok "harmful1" ∧
    (categorizeOne (errCall "SENTIMENT=negative2 INTENT=harmful1 REASON=refused")
        tagScammerArticle).map (fun c => c.harmful) = .ok true := by
  refine ⟨rfl, rfl, rfl⟩

/-- Claim C5 as amended: a reply lacking a marker parses to three empty
fields and the article is not flagged harmful; a failing model call is
caught and surfaces as the descriptive string
`[Gemini API error: <message>]` in the raw field; and that error string
parses to empty labels provided the failure message does not itself
contain the `SENTIMENT=` marker text. -/
theorem C5_error_fallback_amended :
    (∀ g : String,
        pyInStr "SENTIMENT=" g = false ∨ pyInStr "INTENT=" g = false →
        parseGemini g = ("", "", "")) ∧
    (∀ (call : String → Except String String) (a : Article) (c : Categorized),
        categorizeOne call a = .ok c →
        pyInStr "SENTIMENT=" c.gemini_raw = false →
        c.gemini_sentiment = "" ∧ c.gemini_intent = "" ∧ c.gemini_reason = "" ∧
        c.harmful = false) ∧
    (∀ e text harm : String,
        fetch_from_gemini_sentiment_intent (errCall e) text harm =
          "[Gemini API error: " ++ e ++ "]") ∧
    (∀ e : String, pyInStr "SENTIMENT=" e = false →
        parseGemini ("[Gemini API error: " ++ e ++ "]") = ("", "", "")) := by
  refine ⟨fun g h => parseGemini_no_markers g h, ?_, fun e text harm => rfl, ?_⟩
  · intro call a c hok h
    obtain ⟨tags, t1, t2, -, -, -, rfl⟩ := categorizeOne_ok_elim call a c hok
    have hp : parseGemini (categorizeRecord call a tags t1 t2).gemini_raw = ("", "", "") :=
      parseGemini_no_markers _ (Or.inl h)
    refine ⟨?_, ?_, ?_, ?_⟩
    · show (parseGemini (categorizeRecord call a tags t1 t2).gemini_raw).1 = ""
      rw [hp]
    · show (parseGemini (categorizeRecord call a tags t1 t2).gemini_raw).2.1 = ""
      rw [hp]
    · show (parseGemini (categorizeRecord call a tags t1 t2).gemini_raw).2.2 = ""
      rw [hp]
    · show pyStartsWith
        (parseGemini (categorizeRecord call a tags t1 t2).gemini_raw).2.1 "harmful" = false
      rw [hp]
      decide
  · intro e he
    exact parseGemini_no_markers _ (Or.inl (errorString_no_marker e he))

/-- Witness for C5 (amended): a marker-free reply parses to nothing; a
concrete quota failure is embedded verbatim, keeps the article
non-harmful, and its error string parses to empty labels. -/
theorem C5_witness :
    parseGemini "the model declined to answer" = ("", "", "") ∧
    (⟨tagScammerArticle, false, ["scam"], "", "", "",
      "[Gemini API error: quota exceeded]"⟩ : Categorized).gemini_intent = "" ∧
    (⟨tagScammerArticle, false, ["scam"], "", "", "",
      "[Gemini API error: quota exceeded]"⟩ : Categorized).harmful = false ∧
    fetch_from_gemini_sentiment_intent (errCall "quota exceeded") "t" "None" =
      "[Gemini API error: " ++ "quota exceeded" ++ "]" ∧
    parseGemini ("[Gemini API error: " ++ "quota exceeded" ++ "]") = ("", "", "") := by
  have hok : categorizeOne (errCall "quota exceeded") tagScammerArticle =
      .ok ⟨tagScammerArticle, false, ["scam"], "", "", "",
           "[Gemini API error: quota exceeded]"⟩ := rfl
  exact ⟨C5_error_fallback_amended.1 "the model declined to answer" (Or.inl (by decide)),
    (C5_error_fallback_amended.2.1 (errCall "quota exceeded") tagScammerArticle _ hok
      (by decide)).2.1,
    (C5_error_fallback_amended.2.1 (errCall "quota exceeded") tagScammerArticle _ hok
      (by decide)).2.2.2,
    C5_error_fallback_amended.2.2.1 "quota exceeded" "t" "None",
    C5_error_fallback_amended.2.2.2 "quota exceeded" (by decide)⟩

theorem beforeOK_last (p : Bool) (pre : List Char) (c : Char)
    (h : pre.getLast? = some c) : beforeOK p pre = !(isWordChar c) := by
  unfold beforeOK; rw [h]

theorem beforeOK_none (p : Bool) (pre : List Char)
    (h : pre.getLast? = Option.none) : beforeOK p pre = !p := by
  unfold beforeOK; rw [h]

theorem beforeOK_cons (p : Bool) (c : Char) (pre : List Char) :
    beforeOK p (c :: pre) = beforeOK (isWordChar c) pre := by
  cases pre with
  | nil => rfl
  | cons d pre' =>
      cases hgl : (d :: pre').getLast? with
      | none => simp [List.getLast?_eq_none_iff] at hgl
      | some x =>
          rw [beforeOK_last (isWordChar c) (d :: pre') x hgl,
            beforeOK_last p (c :: d :: pre') x
              (by rw [List.getLast?_cons_cons]; exact hgl)]

theorem prefixCI_iff (w : List Char) :
    ∀ (cs rest : List Char), prefixMatchCI w cs = some rest ↔
      ∃ mid, cs = mid ++ rest ∧ mid.map Char.toLower = w.map Char.toLower := by
  induction w with
  | nil =>
      intro cs rest
      constructor
      · intro h
        have hcs : cs = rest := by simpa [prefixMatchCI] using h
        exact ⟨[], by simp [hcs], by simp⟩
      · rintro ⟨mid, hcs, hmap⟩
        have hmid : mid = [] := by simpa using hmap
        subst hmid
        simp at hcs
        simp [prefixMatchCI, hcs]
  | cons a ws ih =>
      intro cs rest
      cases cs with
      | nil =>
          constructor
          · intro h; simp [prefixMatchCI] at h
          · rintro ⟨mid, hcs, hmap⟩
            have hmid : mid = [] := (List.append_eq_nil.mp hcs.symm).1
            subst hmid
            simp at hmap
      | cons c cs' =>
          by_cases h : c.toLower = a.toLower
          · have hbeq : (c.toLower == a.toLower) = true := beq_iff_eq.mpr h
            constructor
            · intro hpm
              rw [prefixMatchCI, hbeq] at hpm
              simp only [if_true] at hpm
              obtain ⟨mid', hcs', hmap'⟩ := (ih cs' rest).mp hpm
              exact ⟨c :: mid', by simp [hcs'], by simp [hmap', h]⟩
            · rintro ⟨mid, hcs, hmap⟩
              cases mid with
              | nil => simp at hmap
              | cons m0 mid' =>
                  rw [List.cons_append] at hcs
                  injection hcs with h1 h2
                  rw [List.map_cons, List.map_cons] at hmap
                  injection hmap with h3 h4
                  rw [prefixMatchCI, hbeq]
                  simp only [if_true]
                  exact (ih cs' rest).mpr ⟨mid', h2, h4⟩
          · have hbeq : (c.toLower == a.toLower) = false :=
              beq_eq_false_iff_ne.mpr h
            constructor
            · intro hpm
              rw [prefixMatchCI, hbeq] at hpm
              simp at hpm
            · rintro ⟨mid, hcs, hmap⟩
              cases mid with
              | nil => simp at hmap
              | cons m0 mid' =>
                  rw [List.cons_append] at hcs
                  injection hcs with h1 h2
                  rw [List.map_cons, List.map_cons] at hmap
                  injection hmap with h3 h4
                  exact absurd (h1 ▸ h3) h

theorem scanWord_iff (w : List Char) (hw : w ≠ []) :
    ∀ (cs : List Char) (p : Bool), scanWord w p cs = true ↔
      ∃ pre mid post, cs = pre ++ mid ++ post ∧
        mid.map Char.toLower = w.map Char.toLower ∧
        beforeOK p pre = true ∧ boundaryOK post.head? = true := by
  intro cs
  induction cs with
  | nil =>
      intro p
      constructor
      · intro h; simp [scanWord] at h
      · rintro ⟨pre, mid, post, hsplit, hmap, _, _⟩
        exfalso
        have h1 := List.append_eq_nil.mp hsplit.symm
        have h2 := List.append_eq_nil.mp h1.1
        apply hw
        have hmid : mid.map Char.toLower = [] := by rw [h2.2]; rfl
        rw [hmid] at hmap
        exact List.map_eq_nil_iff.mp hmap.symm
  | cons c cs' ih =>
      intro p
      rw [scanWord]
      constructor
      · intro h
        rw [Bool.or_eq_true] at h
        rcases h with hA | hB
        · rw [Bool.and_eq_true] at hA
          obtain ⟨h1, hm⟩ := hA
          have hp : p = false := by
            cases p
            · rfl
            · simp at h1
          cases hpm : prefixMatchCI w (c :: cs') with
          | none => rw [hpm] at hm; cases hm
          | some rest =>
              rw [hpm] at hm
              obtain ⟨mid, hsplit, hmap⟩ := (prefixCI_iff w (c :: cs') rest).mp hpm
              exact ⟨[], mid, rest, by simp [hsplit], hmap,
                by rw [beforeOK_none p [] rfl, hp]; rfl, hm⟩
        · obtain ⟨pre, mid, post, hsplit, hmap, hbef, hbnd⟩ := (ih (isWordChar c)).mp hB
          exact ⟨c :: pre, mid, post, by simp [hsplit], hmap,
            by rw [beforeOK_cons]; exact hbef, hbnd⟩
      · rintro ⟨pre, mid, post, hsplit, hmap, hbef, hbnd⟩
        cases pre with
        | nil =>
            rw [List.nil_append] at hsplit
            have hpm : prefixMatchCI w (c :: cs') = some post :=
              (prefixCI_iff w (c :: cs') post).mpr ⟨mid, hsplit, hmap⟩
            have hp : (!p) = true := by
              rw [beforeOK_none p [] rfl] at hbef
              exact hbef
            rw [Bool.or_eq_true]
            left
            rw [Bool.and_eq_true]
            exact ⟨hp, by rw [hpm]; exact hbnd⟩
        | cons p0 pre' =>
            rw [List.cons_append, List.cons_append] at hsplit
            injection hsplit with h1 h2
            subst h1
            rw [Bool.or_eq_true]
            right
            exact (ih (isWordChar c)).mpr ⟨pre', mid, post, h2, hmap,
              by rw [beforeOK_cons] at hbef; exact hbef, hbnd⟩

theorem keywords_lower_fixed : ∀ w ∈ HARMFUL_KEYWORDS, lowerStr w = w := by decide

theorem keywords_ne_empty : ∀ w ∈ HARMFUL_KEYWORDS, w.toList ≠ [] := by decide

theorem detect_mem_iff (s w : String) :
    w ∈ detect_harmful_words (.str s) ↔
      w ∈ HARMFUL_KEYWORDS ∧ ∃ pre mid post : List Char,
        s.toList = pre ++ mid ++ post ∧
        mid.map Char.toLower = w.toList.map Char.toLower ∧
        (∀ c, pre.getLast? = some c → isWordChar c = false) ∧
        (∀ c, post.head? = some c → isWordChar c = false) := by
  by_cases hs : s.isEmpty = true
  · constructor
    · intro h
      exfalso
      simp [detect_harmful_words, pyTruthy, hs] at h
    · rintro ⟨hmem, pre, mid, post, hsplit, hmap, _, _⟩
      exfalso
      have hsl : s.toList = [] := by
        rw [String.isEmpty_iff] at hs
        rw [hs]; rfl
      rw [hsl] at hsplit
      have h1 := List.append_eq_nil.mp hsplit.symm
      have h2 := List.append_eq_nil.mp h1.1
      apply keywords_ne_empty w hmem
      have hmid : mid.map Char.toLower = [] := by rw [h2.2]; rfl
      rw [hmid] at hmap
      exact List.map_eq_nil_iff.mp hmap.symm
  · have htr : pyTruthy (.str s) = true := by
      simp [pyTruthy]
      cases hcase : s.isEmpty
      · rfl
      · exact absurd hcase hs
    rw [detect_harmful_words, if_pos htr]
    constructor
    · intro h
      obtain ⟨w₀, hw₀, hweq⟩ := List.mem_map.mp h
      obtain ⟨hw₀mem, hw₀f⟩ := List.mem_filter.mp hw₀
      have hlow : lowerStr w₀ = w₀ := keywords_lower_fixed w₀ hw₀mem
      have hww : w = w₀ := by rw [← hweq, hlow]
      subst hww
      rw [containsWholeWord] at hw₀f
      obtain ⟨pre, mid, post, hsplit, hmap, hbef, hbnd⟩ :=
        (scanWord_iff w.toList (keywords_ne_empty w hw₀mem) s.toList false).mp hw₀f
      refine ⟨hw₀mem, pre, mid, post, hsplit, hmap, ?_, ?_⟩
      · intro c hc
        rw [beforeOK_last false pre c hc] at hbef
        cases hcase : isWordChar c
        · rfl
        · rw [hcase] at hbef; cases hbef
      · intro c hc
        rw [hc] at hbnd
        cases hcase : isWordChar c
        · rfl
        · simp [boundaryOK, hcase] at hbnd
    · rintro ⟨hmem, pre, mid, post, hsplit, hmap, hbef, hbnd⟩
      apply List.mem_map.mpr
      refine ⟨w, ?_, keywords_lower_fixed w hmem⟩
      apply List.mem_filter.mpr
      refine ⟨hmem, ?_⟩
      show containsWholeWord s w = true
      rw [containsWholeWord]
      apply (scanWord_iff w.toList (keywords_ne_empty w hmem) s.toList false).mpr
      refine ⟨pre, mid, post, hsplit, hmap, ?_, ?_⟩
      · cases hgl : pre.getLast? with
        | none => rw [beforeOK_none _ _ hgl]; rfl
        | some c => rw [beforeOK_last _ _ _ hgl, hbef c hgl]; rfl
      · cases hh : post.head? with
        | none => rfl
        | some c => simp [boundaryOK, hbnd c hh]

/-- Claim C2 (confirmed): the Keyword Detector is a pure function
(equal inputs give equal outputs), absent (`None`) or empty text yields
the empty set, and a list word is detected in a string exactly when it
occurs whole-word — a case-insensitive copy of the word delimited on
both sides by absence of word characters; in particular "scammer" does
not match "scam", while "Scam alert" does. -/
theorem C2_detector_pure_whole_word :
    (∀ t₁ t₂ : PyVal, t₁ = t₂ → detect_harmful_words t₁ = detect_harmful_words t₂) ∧
    detect_harmful_words PyVal.none = [] ∧
    detect_harmful_words (.str "") = [] ∧
    (∀ s w : String,
        w ∈ detect_harmful_words (.str s) ↔
          w ∈ HARMFUL_KEYWORDS ∧ ∃ pre mid post : List Char,
            s.toList = pre ++ mid ++ post ∧
            mid.map Char.toLower = w.toList.map Char.toLower ∧
            (∀ c, pre.getLast? = some c → isWordChar c = false) ∧
            (∀ c, post.head? = some c → isWordChar c = false)) ∧
    detect_harmful_words (.str "scammer") = [] ∧
    detect_harmful_words (.str "Scam alert") = ["scam"] :=
  ⟨fun t₁ t₂ h => h ▸ rfl, rfl, rfl, detect_mem_iff, by decide, by decide⟩

/-- Witness for C2: determinism applied at a concrete text, and the
word-boundary characterization instantiated in both directions — "scam"
is a member for "a scam!" via an explicit boundary decomposition, and
membership for "I saw a scam" yields a decomposition. -/
theorem C2_witness :
    detect_harmful_words (.str "a scam!") = detect_harmful_words (.str "a scam!") ∧
    "scam" ∈ detect_harmful_words (.str "a scam!") ∧
    (∃ pre mid post : List Char,
        ("I saw a scam").toList = pre ++ mid ++ post ∧
        mid.map Char.toLower = ("scam").toList.map Char.toLower ∧
        (∀ c, pre.getLast? = some c → isWordChar c = false) ∧
        (∀ c, post.head? = some c → isWordChar c = false)) := by
  refine ⟨C2_detector_pure_whole_word.1 (.str "a scam!") (.str "a scam!") rfl, ?_, ?_⟩
  · apply (C2_detector_pure_whole_word.2.2.2.1 "a scam!" "scam").mpr
    refine ⟨by decide, ['a', ' '], ['s', 'c', 'a', 'm'], ['!'], by decide, by decide,
      ?_, ?_⟩
    · intro c hc
      have h' : some ' ' = some c := hc
      cases h'
      decide
    · intro c hc
      have h' : some '!' = some c := hc
      cases h'
      decide
  · exact ((C2_detector_pure_whole_word.2.2.2.1 "I saw a scam" "scam").mp
      (by decide)).2

theorem categorizeRecord_harmful_words_mem (call : String → Except String String)
    (a : Article) (tags : List String) (t1 t2 : String) (w : String) :
    w ∈ (categorizeRecord call a tags t1 t2).harmful_words ↔
      (w ∈ detect_harmful_words a.title ∨ w ∈ detect_harmful_words a.description ∨
        ∃ kw ∈ tags, w ∈ HARMFUL_KEYWORDS ∧ pyInStr w (lowerStr kw) = true) := by
  show w ∈ (detect_harmful_words a.title ++ detect_harmful_words a.description ++
      tags.flatMap
        (fun kw => HARMFUL_KEYWORDS.filter (fun w => pyInStr w (lowerStr kw)))).dedup ↔ _
  rw [List.mem_dedup, List.mem_append, List.mem_append]
  constructor
  · rintro ((h | h) | h)
    · exact Or.inl h
    · exact Or.inr (Or.inl h)
    · obtain ⟨kw, hkw, hmem⟩ := List.mem_flatMap.mp h
      obtain ⟨hw, hp⟩ := List.mem_filter.mp hmem
      exact Or.inr (Or.inr ⟨kw, hkw, hw, hp⟩)
  · rintro (h | h | ⟨kw, hkw, hw, hp⟩)
    · exact Or.inl (Or.inl h)
    · exact Or.inl (Or.inr h)
    · exact Or.inr (List.mem_flatMap.mpr ⟨kw, hkw, List.mem_filter.mpr ⟨hw, hp⟩⟩)

theorem categorize_harmful_words_mem (call : String → Except String String)
    (a : Article) (tags : List String) (c : Categorized) (w : String)
    (htags : tagStrings a.keywords = .ok tags)
    (hok : categorizeOne call a = .ok c) :
    w ∈ c.harmful_words ↔
      (w ∈ detect_harmful_words a.title ∨ w ∈ detect_harmful_words a.description ∨
        ∃ kw ∈ tags, w ∈ HARMFUL_KEYWORDS ∧ pyInStr w (lowerStr kw) = true) := by
  obtain ⟨tags', t1, t2, htags', -, -, rfl⟩ := categorizeOne_ok_elim call a c hok
  rw [htags'] at htags
  have heq : tags' = tags := by simpa using htags
  rw [← heq]
  exact categorizeRecord_harmful_words_mem call a tags' t1 t2 w

/-- Counterexample for claim C3: for an article whose only tag is
"scammer" (empty title and description), the code records "scam" —
the tag scan of app.py:195-198 is a plain substring test — while the
spec's union of Keyword Detector outputs (whole-word matching on the
tags too) is empty. -/
theorem C3_counterexample :
    (categorizeOne (constCall "") tagScammerArticle).map
      (fun c => c.harmful_words) = .ok ["scam"] ∧
    "scam" ∉ specDetectorUnion tagScammerArticle ∧
    specDetectorUnion tagScammerArticle = [] := by
  refine ⟨rfl, by decide, by decide⟩

/-- Claim C3 as amended: an article's detected harmful-word set is the
union of the Detector's whole-word output over title and description
with, for each provider tag, every harmful-list word occurring as a
case-insensitive SUBSTRING of the tag (not whole-word). -/
theorem C3_union_with_substring_tags :
    ∀ (call : String → Except String String) (a : Article) (tags : List String)
      (c : Categorized) (w : String),
      tagStrings a.keywords = .ok tags → categorizeOne call a = .ok c →
      (w ∈ c.harmful_words ↔
        (w ∈ detect_harmful_words a.title ∨ w ∈ detect_harmful_words a.description ∨
          ∃ kw ∈ tags, w ∈ HARMFUL_KEYWORDS ∧ pyInStr w (lowerStr kw) = true)) :=
  fun call a tags c w htags hok =>
    categorize_harmful_words_mem call a tags c w htags hok

/-- Witness for C3 (amended): for the "scammer"-tagged article the
characterization produces the substring-matched "scam" witness. -/
theorem C3_witness :
    "scam" ∈ detect_harmful_words tagScammerArticle.title ∨
    "scam" ∈ detect_harmful_words tagScammerArticle.description ∨
    ∃ kw ∈ ["scammer"], "scam" ∈ HARMFUL_KEYWORDS ∧
      pyInStr "scam" (lowerStr kw) = true := by
  have hok : categorizeOne (constCall "") tagScammerArticle =
      .ok ⟨tagScammerArticle, false, ["scam"], "", "", "", ""⟩ := rfl
  exact (C3_union_with_substring_tags (constCall "") tagScammerArticle ["scammer"]
    ⟨tagScammerArticle, false, ["scam"], "", "", "", ""⟩ "scam" rfl hok).mp (by decide)

theorem pyGet_dict (kvs : List (String × PyVal)) (k : String) (d : PyVal) :
    pyGet (.dict kvs) k d = .ok ((kvs.lookup k).getD d) := by
  cases h : kvs.lookup k <;> simp [pyGet, h]

theorem mapEx_isOk (f : α → Except String β) (l : List α)
    (h : ∀ x ∈ l, (f x).isOk = true) : (mapEx f l).isOk = true := by
  induction l with
  | nil => rfl
  | cons x xs ih =>
      cases hfx : f x with
      | error e =>
          have hx := h x (List.mem_cons_self x xs)
          rw [hfx] at hx
          simp [Except.isOk, Except.toBool] at hx
      | ok y =>
          cases hm : mapEx f xs with
          | error e =>
              have hxs := ih (fun z hz => h z (List.mem_cons_of_mem x hz))
              rw [hm] at hxs
              simp [Except.isOk, Except.toBool] at hxs
          | ok ys =>
              simp [mapEx, hfx, hm, Except.bind, Bind.bind, Pure.pure, Except.pure,
                Except.isOk, Except.toBool]

theorem normalizeWikiItem_ok (item : PyVal) (h : wellShapedWikiItem item = true) :
    (normalizeWikiItem item).isOk = true := by
  cases item with
  | dict kvs =>
      cases hl : kvs.lookup "snippet" with
      | none =>
          simp [normalizeWikiItem, pyGet_dict, hl, pyReSub, Except.bind, Bind.bind,
            Pure.pure, Except.pure, Except.isOk, Except.toBool]
      | some v =>
          cases v with
          | str str_v =>
              simp [normalizeWikiItem, pyGet_dict, hl, pyReSub, Except.bind, Bind.bind,
                Pure.pure, Except.pure, Except.isOk, Except.toBool]
          | none => simp [wellShapedWikiItem, hl] at h
          | int n => simp [wellShapedWikiItem, hl] at h
          | list vs => simp [wellShapedWikiItem, hl] at h
          | dict d => simp [wellShapedWikiItem, hl] at h
  | none => simp [wellShapedWikiItem] at h
  | str t => simp [wellShapedWikiItem] at h
  | int n => simp [wellShapedWikiItem] at h
  | list vs => simp [wellShapedWikiItem] at h

theorem normalizeNewsdataItem_ok (item : PyVal) (h : wellShapedNewsdataItem item = true) :
    (normalizeNewsdataItem item).isOk = true := by
  cases item with
  | dict kvs =>
      simp [normalizeNewsdataItem, pyGet_dict, Except.bind, Bind.bind,
        Pure.pure, Except.pure, Except.isOk, Except.toBool]
  | none => simp [wellShapedNewsdataItem] at h
  | str t => simp [wellShapedNewsdataItem] at h
  | int n => simp [wellShapedNewsdataItem] at h
  | list vs => simp [wellShapedNewsdataItem] at h

theorem normalizeNewsapiItem_ok (item : PyVal) (h : wellShapedNewsapiItem item = true) :
    (normalizeNewsapiItem item).isOk = true := by
  cases item with
  | dict kvs =>
      cases hl : kvs.lookup "source" with
      | none =>
          simp [normalizeNewsapiItem, pyGet_dict, hl, Except.bind, Bind.bind,
            Pure.pure, Except.pure, Except.isOk, Except.toBool]
      | some v =>
          cases v with
          | dict skvs =>
              simp [normalizeNewsapiItem, pyGet_dict, hl, Except.bind, Bind.bind,
                Pure.pure, Except.pure, Except.isOk, Except.toBool]
          | none => simp [wellShapedNewsapiItem, hl] at h
          | str t => simp [wellShapedNewsapiItem, hl] at h
          | int n => simp [wellShapedNewsapiItem, hl] at h
          | list vs => simp [wellShapedNewsapiItem, hl] at h
  | none => simp [wellShapedNewsapiItem] at h
  | str t => simp [wellShapedNewsapiItem] at h
  | int n => simp [wellShapedNewsapiItem] at h
  | list vs => simp [wellShapedNewsapiItem] at h

theorem wikiArticles_ok (data : PyVal) (h : wikiDataOk data = true) :
    (wikiArticles data).isOk = true := by
  cases data with
  | dict kvs =>
      cases hq : kvs.lookup "query" with
      | none =>
          simp [wikiArticles, pyGet_dict, hq, pyIterate, mapEx, Except.bind, Bind.bind,
            Pure.pure, Except.pure, Except.isOk, Except.toBool]
      | some qv =>
          cases qv with
          | dict qkvs =>
              cases hs2 : qkvs.lookup "search" with
              | none =>
                  simp [wikiArticles, pyGet_dict, hq, hs2, pyIterate, mapEx, Except.bind,
                    Bind.bind, Pure.pure, Except.pure, Except.isOk, Except.toBool]
              | some sv =>
                  cases sv with
                  | list items =>
                      have hall : ∀ item ∈ items, wellShapedWikiItem item = true := by
                        have h' : items.all wellShapedWikiItem = true := by
                          simpa [wikiDataOk, hq, hs2] using h
                        exact List.all_eq_true.mp h'
                      have hm := mapEx_isOk normalizeWikiItem items
                        (fun x hx => normalizeWikiItem_ok x (hall x hx))
                      have heq : wikiArticles (.dict kvs) = mapEx normalizeWikiItem items := by
                        simp [wikiArticles, pyGet_dict, hq, hs2, pyIterate, Except.bind,
                          Bind.bind]
                      rw [heq]
                      exact hm
                  | none => simp [wikiDataOk, hq, hs2] at h
                  | str t => simp [wikiDataOk, hq, hs2] at h
                  | int n => simp [wikiDataOk, hq, hs2] at h
                  | dict d2 => simp [wikiDataOk, hq, hs2] at h
          | none => simp [wikiDataOk, hq] at h
          | str t => simp [wikiDataOk, hq] at h
          | int n => simp [wikiDataOk, hq] at h
          | list vs => simp [wikiDataOk, hq] at h
  | none => simp [wikiDataOk] at h
  | str t => simp [wikiDataOk] at h
  | int n => simp [wikiDataOk] at h
  | list vs => simp [wikiDataOk] at h

theorem newsdataArticles_ok (data : PyVal) (h : newsdataDataOk data = true) :
    (newsdataArticles data).isOk = true := by
  cases data with
  | dict kvs =>
      by_cases hst : pyEqStr ((kvs.lookup "status").getD .none) "success" = true
      · cases hr : kvs.lookup "results" with
        | none =>
            cases hl : kvs.lookup "status" with
            | none => rw [hl] at hst; simp [pyEqStr] at hst
            | some w =>
                rw [hl] at hst
                simp only [Option.getD_some] at hst
                simp [newsdataArticles, pyGet_dict, hl, hr, hst, pyIterate, mapEx,
                  Except.bind, Bind.bind, Pure.pure, Except.pure, Except.isOk, Except.toBool]
        | some rv =>
            cases rv with
            | list items =>
                have hall : ∀ item ∈ items, wellShapedNewsdataItem item = true := by
                  have h' : items.all wellShapedNewsdataItem = true := by
                    simpa [newsdataDataOk, hst, hr] using h
                  exact List.all_eq_true.mp h'
                have hm := mapEx_isOk normalizeNewsdataItem items
                  (fun x hx => normalizeNewsdataItem_ok x (hall x hx))
                cases hl : kvs.lookup "status" with
                | none => rw [hl] at hst; simp [pyEqStr] at hst
                | some w =>
                    rw [hl] at hst
                    simp only [Option.getD_some] at hst
                    have heq : newsdataArticles (.dict kvs) =
                        mapEx normalizeNewsdataItem items := by
                      simp [newsdataArticles, pyGet_dict, hl, hr, hst, pyIterate,
                        Except.bind, Bind.bind]
                    rw [heq]
                    exact hm
            | none => simp [newsdataDataOk, hst, hr] at h
            | str t => simp [newsdataDataOk, hst, hr] at h
            | int n => simp [newsdataDataOk, hst, hr] at h
            | dict d2 => simp [newsdataDataOk, hst, hr] at h
      · have hst' : pyEqStr ((kvs.lookup "status").getD .none) "success" = false := by
          cases hcase : pyEqStr ((kvs.lookup "status").getD .none) "success"
          · rfl
          · exact absurd hcase hst
        rw [newsdataArticles_bad_status kvs hst']
        rfl
  | none => simp [newsdataDataOk] at h
  | str t => simp [newsdataDataOk] at h
  | int n => simp [newsdataDataOk] at h
  | list vs => simp [newsdataDataOk] at h

theorem newsapiArticles_ok (data : PyVal) (h : newsapiDataOk data = true) :
    (newsapiArticles data).isOk = true := by
  cases data with
  | dict kvs =>
      by_cases hst : pyEqStr ((kvs.lookup "status").getD .none) "ok" = true
      · cases hr : kvs.lookup "articles" with
        | none =>
            cases hl : kvs.lookup "status" with
            | none => rw [hl] at hst; simp [pyEqStr] at hst
            | some w =>
                rw [hl] at hst
                simp only [Option.getD_some] at hst
                simp [newsapiArticles, pyGet_dict, hl, hr, hst, pyIterate, mapEx,
                  Except.bind, Bind.bind, Pure.pure, Except.pure, Except.isOk, Except.toBool]
        | some rv =>
            cases rv with
            | list items =>
                have hall : ∀ item ∈ items, wellShapedNewsapiItem item = true := by
                  have h' : items.all wellShapedNewsapiItem = true := by
                    simpa [newsapiDataOk, hst, hr] using h
                  exact List.all_eq_true.mp h'
                have hm := mapEx_isOk normalizeNewsapiItem items
                  (fun x hx => normalizeNewsapiItem_ok x (hall x hx))
                cases hl : kvs.lookup "status" with
                | none => rw [hl] at hst; simp [pyEqStr] at hst
                | some w =>
                    rw [hl] at hst
                    simp only [Option.getD_some] at hst
                    have heq : newsapiArticles (.dict kvs) =
                        mapEx normalizeNewsapiItem items := by
                      simp [newsapiArticles, pyGet_dict, hl, hr, hst, pyIterate,
                        Except.bind, Bind.bind]
                    rw [heq]
                    exact hm
            | none => simp [newsapiDataOk, hst, hr] at h
            | str t => simp [newsapiDataOk, hst, hr] at h
            | int n => simp [newsapiDataOk, hst, hr] at h
            | dict d2 => simp [newsapiDataOk, hst, hr] at h
      · have hst' : pyEqStr ((kvs.lookup "status").getD .none) "ok" = false := by
          cases hcase : pyEqStr ((kvs.lookup "status").getD .none) "ok"
          · rfl
          · exact absurd hcase hst
        rw [newsapiArticles_bad_status kvs hst']
        rfl
  | none => simp [newsapiDataOk] at h
  | str t => simp [newsapiDataOk] at h
  | int n => simp [newsapiDataOk] at h
  | list vs => simp [newsapiDataOk] at h

/-- Counterexample for claim C8: normalization is NOT total for every
item shape — a NewsAPI item whose `source` field is null makes the
nested `.get` raise (and this happens outside the per-provider
try/except), failing the mapping. -/
theorem C8_counterexample :
    normalizeItems "newsapi" nullSourcePayload =
      .error "AttributeError: object has no attribute get" ∧
    (normalizeItems "newsapi" nullSourcePayload).isOk = false := by
  refine ⟨rfl, by decide⟩

/-- Claim C8 as amended: normalization is total for every decoded
payload whose containers have the expected kinds (the payload and each
item are dicts, the NewsAPI `source` field is a dict when present, the
Wikipedia `snippet` field a string when present); missing `description`
and `keywords` default to empty string / empty list, while a missing
`title`, `link` or `pub_date` defaults to null, not to an empty
string. -/
theorem C8_normalization_total_amended :
    (∀ (t : String) (data : PyVal), wellShapedData t data = true →
        (normalizeItems t data).isOk = true) ∧
    newsdataArticles (.dict [("status", .str "success"), ("results", .list [.dict []])]) =
      .ok [⟨.str "NewsData.io", PyVal.none, .str "", PyVal.none, PyVal.none,
            .list [], "news"⟩] := by
  constructor
  · intro t data h
    unfold normalizeItems
    unfold wellShapedData at h
    by_cases h1 : (t == "wikipedia") = true
    · rw [if_pos h1] at h ⊢
      exact wikiArticles_ok data h
    · rw [if_neg h1] at h ⊢
      by_cases h2 : (t == "newsdata") = true
      · rw [if_pos h2] at h ⊢
        exact newsdataArticles_ok data h
      · rw [if_neg h2] at h ⊢
        exact newsapiArticles_ok data h
  · rfl

/-- Witness for C8 (amended): normalization succeeds on a concrete
well-shaped payload of each provider kind. -/
theorem C8_witness :
    (normalizeItems "wikipedia"
      (.dict [("query", .dict [("search", .list [.dict [("snippet", .str "a <b>x</b>")]])])])).isOk
      = true ∧
    (normalizeItems "newsdata"
      (.dict [("status", .str "success"), ("results", .list [.dict []])])).isOk = true ∧
    (normalizeItems "newsapi"
      (.dict [("status", .str "ok"),
              ("articles", .list [.dict [("source", .dict [("name", .str "BBC")])]])])).isOk
      = true :=
  ⟨C8_normalization_total_amended.1 "wikipedia" _ (by decide),
   C8_normalization_total_amended.1 "newsdata" _ (by decide),
   C8_normalization_total_amended.1 "newsapi" _ (by decide)⟩

/-- Counterexample for claim C9: a NewsAPI item whose source name is
present but empty normalizes to an Article whose `source` is the empty
string — not the sentinel "unknown_source"; the sentinel is only
applied later, by the persistence layer. -/
theorem C9_counterexample :
    normalizeNewsapiItem (.dict [("source", .dict [("name", .str "")])]) =
      .ok ⟨.str "", PyVal.none, .str "", PyVal.none, PyVal.none, .list [], "news"⟩ ∧
    pyEqStr (PyVal.str "") "unknown_source" = false ∧
    lookupCount (update_source_profile emptyDb (.str "")).source_profiles
      "unknown_source" = 1 := by
  refine ⟨rfl, by decide, by decide⟩

/-- Claim C9 as amended: the "unknown_source" sentinel lives in the
persistence layer — a falsy (empty or null) source name is recorded
under the sentinel row, exactly as if the sentinel had been passed —
while normalization defaults an absent source to the per-provider
fallback name ("Wikipedia", "NewsData.io", "NewsAPI"), not to the
sentinel. -/
theorem C9_sentinel_at_persistence_amended :
    (∀ (db : Db) (v : PyVal), pyTruthy v = false →
        update_source_profile db v = update_source_profile db (.str "unknown_source")) ∧
    (∀ (db : Db) (v : PyVal), pyTruthy v = false →
        lookupCount (update_source_profile db v).source_profiles "unknown_source" =
          lookupCount db.source_profiles "unknown_source" + 1) ∧
    normalizeWikiItem (.dict []) =
      .ok ⟨.str "Wikipedia", PyVal.none, .str "",
           .str "https://en.wikipedia.org/?curid=None", .str "", .list [], "wikipedia"⟩ ∧
    normalizeNewsdataItem (.dict []) =
      .ok ⟨.str "NewsData.io", PyVal.none, .str "", PyVal.none, PyVal.none,
           .list [], "news"⟩ ∧
    normalizeNewsapiItem (.dict []) =
      .ok ⟨.str "NewsAPI", PyVal.none, .str "", PyVal.none, PyVal.none,
           .list [], "news"⟩ := by
  refine ⟨?_, ?_, rfl, rfl, rfl⟩
  · intro db v h
    have hkey : sourceKey v = "unknown_source" := by simp [sourceKey, h]
    unfold update_source_profile
    rw [hkey]
    rfl
  · intro db v h
    have hkey : sourceKey v = "unknown_source" := by simp [sourceKey, h]
    show lookupCount (upsertCount db.source_profiles (sourceKey v)) "unknown_source" = _
    rw [hkey, lookupCount_upsert_self]

/-- Witness for C9 (amended): flagging a null source twice from the
empty store creates and then increments the sentinel row. -/
theorem C9_witness :
    update_source_profile emptyDb PyVal.none =
      update_source_profile emptyDb (.str "unknown_source") ∧
    lookupCount (update_source_profile
      (update_source_profile emptyDb PyVal.none) (.str "")).source_profiles
      "unknown_source" = 2 := by
  constructor
  · exact C9_sentinel_at_persistence_amended.1 emptyDb PyVal.none rfl
  · rw [C9_sentinel_at_persistence_amended.2.1 _ (.str "") rfl]
    decide

end PetroGuard
